import Mathlib

/-!
Verification of the KYC Document Validation Engine and Submission Processing
Pipeline (src/main.py, src/document_processor.py) against its specification.
The Python code is shallowly embedded: strings stay strings, Python floats
are modelled as rationals, dictionaries of known shape become structures,
and the single reachable exception point is modelled with `Except`.
-/

namespace KYC

/-- Python `str.lower()` (ASCII scope). -/
def pyLower (s : String) : String :=
  String.mk (s.data.map Char.toLower)

/-- Python `str.strip()` with no argument: drop leading and trailing
whitespace. -/
def pyTrim (s : String) : String :=
  String.mk (((s.data.dropWhile Char.isWhitespace).reverse.dropWhile
    Char.isWhitespace).reverse)

/-- Python `str.startswith(pre)`. -/
def pyStartsWith (s pre : String) : Bool :=
  decide ((s.data.take pre.data.length) = pre.data)

/-- Accumulator pass for `pySplit`. -/
def splitWsAux : List Char → List Char → List String
  | [], acc => if acc = [] then [] else [String.mk acc.reverse]
  | ch :: cs, acc =>
    if ch.isWhitespace then
      if acc = [] then splitWsAux cs [] else String.mk acc.reverse :: splitWsAux cs []
    else splitWsAux cs (ch :: acc)

/-- Python `str.split()` with no argument: split on whitespace runs,
dropping empty pieces. -/
def pySplit (s : String) : List String :=
  splitWsAux s.data []

/-- Python `' '.join(words)`. -/
def pyJoinSpace : List String → String
  | [] => ""
  | w :: rest => rest.foldl (fun acc x => acc ++ " " ++ x) w

/-- Python `' '.join(s.lower().split())`: lower-case and collapse whitespace,
as done at the top of `_fuzzy_match`. -/
def pyNormWs (s : String) : String :=
  pyJoinSpace (pySplit (pyLower s))

/-- Python `pat in s` substring test. -/
def strContainsSub (s pat : String) : Bool :=
  (List.range (s.data.length + 1)).any
    (fun i => decide (((s.data.drop i).take pat.data.length) = pat.data))

/-- Python `str.isdigit()` restricted to ASCII digits: non-empty and all
characters are digits. -/
def pyIsDigit (w : String) : Bool :=
  w ≠ "" && w.data.all Char.isDigit

/-- An agent response as consumed by `extract_status_from_response`: either a
JSON-object-like dictionary (string keys and values) or plain text. -/
inductive AgentResponse where
  | dict (entries : List (String × String))
  | text (s : String)
deriving Repr, DecidableEq

/-- `KYCProcessor.extract_status_from_response` (main.py lines 504-516):
dictionary responses yield the value at `status_key` (default `"unknown"`);
text responses are probed for status keywords; anything else is `"unknown"`. -/
def extractStatusFromResponse (response : AgentResponse) (statusKey : String) : String :=
  match response with
  | .dict entries =>
    match entries.lookup statusKey with
    | some v => v
    | none => "unknown"
  | .text s =>
    if strContainsSub (pyLower s) "complete" || strContainsSub (pyLower s) "success" then "complete"
    else if strContainsSub (pyLower s) "incomplete" || strContainsSub (pyLower s) "pending" then "incomplete"
    else if strContainsSub (pyLower s) "error" || strContainsSub (pyLower s) "failed" then "error"
    else "unknown"

/-- The final-status decision of `process_customer_submission`
(main.py lines 460-464). -/
def finalStatus (validation_status compliance_status : String) : String :=
  if validation_status = "incomplete" || compliance_status = "warning" then "pending"
  else if validation_status = "error" || compliance_status = "violation" then "rejected"
  else "approved"

/-- The error dictionary built by the `except` branch of `invoke_bedrock_agent`
(main.py lines 225-230) when the external service call raises. -/
def invokeErrorResult (e agentId timestamp : String) : AgentResponse :=
  .dict [("status", "error"), ("error", e), ("agent_id", agentId), ("timestamp", timestamp)]

/-- `invoke_bedrock_agent` seen from its caller: the external call either
returns a response or raises; a raise is caught and converted into the error
dictionary, never propagated (main.py lines 223-242). -/
def invokeBedrockAgent (callResult : Except String AgentResponse)
    (agentId timestamp : String) : AgentResponse :=
  match callResult with
  | .ok r => r
  | .error e => invokeErrorResult e agentId timestamp

/-- The status that `process_customer_submission` persists for the case
(main.py lines 456-478): the final-status decision applied to the statuses
extracted from the document-validation and compliance stage responses. -/
def pipelinePersistedStatus (validationResponse complianceResponse : AgentResponse) : String :=
  finalStatus
    (extractStatusFromResponse validationResponse "validation_status")
    (extractStatusFromResponse complianceResponse "compliance_status")

/-- The fixed abbreviation table of `_normalize_string`
(document_processor.py lines 926-945). -/
def abbreviationsTable : List (String × String) :=
  [("st", "street"), ("ave", "avenue"), ("rd", "road"), ("dr", "drive"),
   ("ln", "lane"), ("blvd", "boulevard"), ("corp", "corporation"),
   ("ltd", "limited"), ("inc", "incorporated"), ("co", "company"),
   ("eng", "engineer"), ("dev", "developer"), ("mgr", "manager"),
   ("dir", "director"), ("pres", "president"), ("ceo", "chief executive officer"),
   ("cto", "chief technology officer"), ("cfo", "chief financial officer")]

/-- `_normalize_string` (document_processor.py lines 923-956): expand the
abbreviation table token by token. -/
def normalizeString (text : String) : String :=
  pyJoinSpace
    ((pySplit text).map (fun word =>
      match abbreviationsTable.lookup word with
      | some full => full
      | none => word))

/-- `_word_similarity` (document_processor.py lines 958-969): Jaccard index
over the sets of whitespace-delimited tokens. -/
def wordSimilarity (str1 str2 : String) : ℚ :=
  let words1 := (pySplit str1).toFinset
  let words2 := (pySplit str2).toFinset
  if words1 = ∅ ∨ words2 = ∅ then 0
  else ((words1 ∩ words2).card : ℚ) / ((words1 ∪ words2).card : ℚ)

/-- `_char_similarity` (document_processor.py lines 971-988): Jaccard index
over the sets of characters after removing spaces. -/
def charSimilarity (str1 str2 : String) : ℚ :=
  if str1.length = 0 ∧ str2.length = 0 then 1
  else if str1.length = 0 ∨ str2.length = 0 then 0
  else
    let chars1 := (str1.data.filter (fun c => c ≠ ' ')).toFinset
    let chars2 := (str2.data.filter (fun c => c ≠ ' ')).toFinset
    if chars1 = ∅ ∨ chars2 = ∅ then 0
    else ((chars1 ∩ chars2).card : ℚ) / ((chars1 ∪ chars2).card : ℚ)

/-- The acronym built inside `_is_abbreviation`
(document_processor.py line 1018): the lower-cased first letters of the words
of `full_text`. -/
def acronymOf (fullText : String) : String :=
  String.mk (((pySplit fullText).filter (fun w => w ≠ "")).map
    (fun w => (w.data.headD ' ').toLower))

/-- `_is_abbreviation` (document_processor.py lines 1007-1027). -/
def isAbbreviation (abbr fullText : String) : Bool :=
  if abbr.length < 2 then false
  else
    let words := pySplit fullText
    if words.length = 1 then strContainsSub (pyLower (words.headD "")) (pyLower abbr)
    else if pyLower abbr = acronymOf fullText then true
    else words.any (fun word => pyStartsWith (pyLower word) (pyLower abbr))

/-- `_abbreviation_similarity` (document_processor.py lines 990-1005). -/
def abbreviationSimilarity (str1 str2 : String) : ℚ :=
  let words1 := pySplit str1
  let words2 := pySplit str2
  if words1.length = 1 ∧ 1 < words2.length then
    if isAbbreviation (words1.headD "") str2 then 9/10 else 0
  else if words2.length = 1 ∧ 1 < words1.length then
    if isAbbreviation (words2.headD "") str1 then 9/10 else 0
  else 0

/-- The nickname table of `_check_name_variations`
(document_processor.py lines 1032-1134), kept in source order; duplicate keys
in the Python dict literal carry identical values, so first-match lookup
agrees with dict semantics. -/
def nicknamesTable : List (String × List String) :=
  [("william", ["bill", "billy", "will", "willy"]),
   ("robert", ["bob", "rob", "robby", "bobby"]),
   ("richard", ["rick", "rich", "dick", "ricky"]),
   ("james", ["jim", "jimmy", "jamie"]),
   ("michael", ["mike", "mikey", "mick", "mickey"]),
   ("david", ["dave", "davey"]),
   ("christopher", ["chris", "topher"]),
   ("daniel", ["dan", "danny"]),
   ("matthew", ["matt", "matty"]),
   ("andrew", ["andy", "drew"]),
   ("elizabeth", ["liz", "lizzy", "beth", "betty", "lisa"]),
   ("margaret", ["maggie", "meg", "peggy"]),
   ("patricia", ["pat", "patty", "trish"]),
   ("jennifer", ["jen", "jenny"]),
   ("susan", ["sue", "suzie"]),
   ("jessica", ["jess", "jessie"]),
   ("sarah", ["sally", "sara"]),
   ("karen", ["kari", "karen"]),
   ("nancy", ["nan", "nancy"]),
   ("lisa", ["lisa", "liz"]),
   ("helen", ["helen", "helena"]),
   ("sandra", ["sandy", "sandra"]),
   ("donna", ["donna", "don"]),
   ("carol", ["carol", "caroline"]),
   ("ruth", ["ruth", "ruthie"]),
   ("sharon", ["sharon", "shari"]),
   ("michelle", ["michelle", "mickey"]),
   ("laura", ["laura", "laurie"]),
   ("emily", ["emily", "em"]),
   ("kimberly", ["kim", "kimberly"]),
   ("deborah", ["deb", "debbie"]),
   ("dorothy", ["dot", "dotty", "dottie"]),
   ("linda", ["linda", "lin"]),
   ("barbara", ["barb", "barbara"]),
   ("ashley", ["ash", "ashley"]),
   ("amanda", ["mandy", "amanda"]),
   ("stephanie", ["steph", "stephanie"]),
   ("nicole", ["nikki", "nicole"]),
   ("emma", ["emma", "em"]),
   ("samantha", ["sam", "samantha"]),
   ("katherine", ["kate", "kathy", "katie", "kat"]),
   ("christine", ["chris", "christine"]),
   ("debra", ["deb", "debbie"]),
   ("rachel", ["rach", "rachel"]),
   ("carolyn", ["carol", "carolyn"]),
   ("janet", ["jan", "janet"]),
   ("virginia", ["ginny", "virginia"]),
   ("maria", ["maria", "marie"]),
   ("heather", ["heather", "heath"]),
   ("diane", ["diane", "diana"]),
   ("julie", ["julie", "jules"]),
   ("joyce", ["joyce", "joy"]),
   ("victoria", ["vicky", "victoria"]),
   ("kelly", ["kelly", "kel"]),
   ("christina", ["tina", "christina"]),
   ("joan", ["joan", "jo"]),
   ("evelyn", ["eve", "evelyn"]),
   ("lauren", ["lauren", "laurie"]),
   ("judith", ["judy", "judith"]),
   ("megan", ["meg", "megan"]),
   ("cheryl", ["cheryl", "cher"]),
   ("andrea", ["andy", "andrea"]),
   ("hannah", ["hannah", "hanna"]),
   ("jacqueline", ["jackie", "jacqueline"]),
   ("martha", ["martha", "marty"]),
   ("gloria", ["gloria", "glory"]),
   ("ann", ["ann", "annie"]),
   ("brenda", ["brenda", "bren"]),
   ("pamela", ["pam", "pamela"]),
   ("nicole", ["nikki", "nicole"]),
   ("emma", ["emma", "em"]),
   ("samantha", ["sam", "samantha"]),
   ("katherine", ["kate", "kathy", "katie", "kat"]),
   ("christine", ["chris", "christine"]),
   ("debra", ["deb", "debbie"]),
   ("rachel", ["rach", "rachel"]),
   ("carolyn", ["carol", "carolyn"]),
   ("janet", ["jan", "janet"]),
   ("virginia", ["ginny", "virginia"]),
   ("maria", ["maria", "marie"]),
   ("heather", ["heather", "heath"]),
   ("diane", ["diane", "diana"]),
   ("julie", ["julie", "jules"]),
   ("joyce", ["joyce", "joy"]),
   ("victoria", ["vicky", "victoria"]),
   ("kelly", ["kelly", "kel"]),
   ("christina", ["tina", "christina"]),
   ("joan", ["joan", "jo"]),
   ("evelyn", ["eve", "evelyn"]),
   ("lauren", ["lauren", "laurie"]),
   ("judith", ["judy", "judith"]),
   ("megan", ["meg", "megan"]),
   ("cheryl", ["cheryl", "cher"]),
   ("andrea", ["andy", "andrea"]),
   ("hannah", ["hannah", "hanna"]),
   ("jacqueline", ["jackie", "jacqueline"]),
   ("martha", ["martha", "marty"]),
   ("gloria", ["gloria", "glory"]),
   ("ann", ["ann", "annie"]),
   ("brenda", ["brenda", "bren"]),
   ("pamela", ["pam", "pamela"])]
/-- The common-variations table of `_check_name_variations`
(document_processor.py lines 1149-1234). -/
def commonVariationsTable : List (String × List String) :=
  [("john", ["johnny", "jon", "jonathan"]),
   ("joseph", ["joe", "joey"]),
   ("thomas", ["tom", "tommy"]),
   ("charles", ["charlie", "chuck"]),
   ("christopher", ["chris", "topher"]),
   ("anthony", ["tony", "ant"]),
   ("donald", ["don", "donny"]),
   ("steven", ["steve", "stevie"]),
   ("paul", ["paulie"]),
   ("mark", ["marky"]),
   ("kenneth", ["ken", "kenny"]),
   ("george", ["georgie"]),
   ("timothy", ["tim", "timmy"]),
   ("ronald", ["ron", "ronnie"]),
   ("jason", ["jay"]),
   ("edward", ["ed", "eddie", "ted"]),
   ("jeffrey", ["jeff"]),
   ("ryan", ["ry"]),
   ("jacob", ["jake"]),
   ("gary", ["gary"]),
   ("nicholas", ["nick", "nickie"]),
   ("eric", ["eric"]),
   ("jonathan", ["jon", "jonny"]),
   ("stephen", ["steve", "stevie"]),
   ("larry", ["larry"]),
   ("justin", ["justin"]),
   ("scott", ["scotty"]),
   ("brandon", ["brandon"]),
   ("benjamin", ["ben", "benny"]),
   ("samuel", ["sam", "sammy"]),
   ("frank", ["frankie"]),
   ("gregory", ["greg"]),
   ("raymond", ["ray"]),
   ("alexander", ["alex", "al"]),
   ("patrick", ["pat", "patty"]),
   ("jack", ["jackie"]),
   ("dennis", ["denny"]),
   ("jerry", ["jerry"]),
   ("tyler", ["ty"]),
   ("aaron", ["aaron"]),
   ("jose", ["jose"]),
   ("adam", ["adam"]),
   ("nathan", ["nate"]),
   ("henry", ["hank"]),
   ("douglas", ["doug"]),
   ("zachary", ["zach", "zack"]),
   ("peter", ["pete"]),
   ("kyle", ["kyle"]),
   ("walter", ["walt"]),
   ("ethan", ["ethan"]),
   ("jeremy", ["jeremy"]),
   ("harold", ["harry", "hal"]),
   ("seth", ["seth"]),
   ("christian", ["chris"]),
   ("andrew", ["andy", "drew"]),
   ("sean", ["shawn"]),
   ("nathaniel", ["nate", "nathan"]),
   ("terry", ["terry"]),
   ("max", ["max"]),
   ("oscar", ["oscar"]),
   ("keith", ["keith"]),
   ("tyler", ["ty"]),
   ("aaron", ["aaron"]),
   ("jose", ["jose"]),
   ("adam", ["adam"]),
   ("nathan", ["nate"]),
   ("henry", ["hank"]),
   ("douglas", ["doug"]),
   ("zachary", ["zach", "zack"]),
   ("peter", ["pete"]),
   ("kyle", ["kyle"]),
   ("walter", ["walt"]),
   ("ethan", ["ethan"]),
   ("jeremy", ["jeremy"]),
   ("harold", ["harry", "hal"]),
   ("seth", ["seth"]),
   ("christian", ["chris"]),
   ("andrew", ["andy", "drew"]),
   ("sean", ["shawn"]),
   ("nathaniel", ["nate", "nathan"]),
   ("terry", ["terry"]),
   ("max", ["max"]),
   ("oscar", ["oscar"]),
   ("keith", ["keith"])]

/-- One bidirectional table probe of `_check_name_variations`: `word1` maps to
`word2` or `word2` maps to `word1`. -/
def tableMatch (table : List (String × List String)) (word1 word2 : String) : Bool :=
  (match table.lookup word1 with
   | some vs => vs.contains word2
   | none => false) ||
  (match table.lookup word2 with
   | some vs => vs.contains word1
   | none => false)

/-- `_check_name_variations` (document_processor.py lines 1029-1243): scan the
nickname table over every token pair in both directions, then the
common-variations table. -/
def checkNameVariations (name1 name2 : String) : Bool :=
  let words1 := pySplit (pyLower name1)
  let words2 := pySplit (pyLower name2)
  (words1.any (fun w1 => words2.any (fun w2 => tableMatch nicknamesTable w1 w2))) ||
  (words1.any (fun w1 => words2.any (fun w2 => tableMatch commonVariationsTable w1 w2)))

/-- `_clean_address` (document_processor.py lines 1317-1330): replace
punctuation by spaces, collapse whitespace, and drop common road-type words. -/
def cleanAddress (address : String) : String :=
  let cleaned := String.mk (address.data.map
    (fun c => if c.isAlphanum || c = '_' || c.isWhitespace then c else ' '))
  let cleaned := pyJoinSpace (pySplit cleaned)
  let commonWords := ["street", "st", "avenue", "ave", "road", "rd", "drive", "dr", "lane", "ln"]
  pyJoinSpace
    ((pySplit cleaned).filter (fun word => ¬ commonWords.contains (pyLower word)))

/-- `_check_partial_address_match` (document_processor.py lines 1245-1279). -/
def checkPartialAddressMatch (addr1 addr2 : String) : Bool :=
  let words1 := pySplit addr1
  let words2 := pySplit addr2
  if 3 < ((words1.length : ℤ) - (words2.length : ℤ)).natAbs then false
  else
    match words1.find? pyIsDigit, words2.find? pyIsDigit with
    | some number1, some number2 =>
      if number1 = number2 then
        let addr1WithoutNumber := pyJoinSpace (words1.filter (fun w => w ≠ number1))
        let addr2WithoutNumber := pyJoinSpace (words2.filter (fun w => w ≠ number2))
        decide (wordSimilarity addr1WithoutNumber addr2WithoutNumber ≥ 7/10)
      else false
    | _, _ => false

/-- `_fuzzy_match_general` (document_processor.py lines 911-921). -/
def fuzzyMatchGeneral (str1 str2 : String) (threshold : ℚ) : Bool :=
  let wordSim := wordSimilarity str1 str2
  let charSim := charSimilarity str1 str2
  let abbrevSim := abbreviationSimilarity str1 str2
  decide (wordSim * (5/10) + charSim * (3/10) + abbrevSim * (2/10) ≥ threshold)

/-- `_fuzzy_match_name` (document_processor.py lines 851-884). -/
def fuzzyMatchName (str1 str2 : String) (threshold : ℚ) : Bool :=
  let words1 := pySplit str1
  let words2 := pySplit str2
  if words1.length = 1 ∧ words2.length = 1 then fuzzyMatchGeneral str1 str2 threshold
  else if words1.length = words2.length ∧
      (words1.zip words2).countP (fun p => p.1 = p.2) = words1.length then true
  else if wordSimilarity str1 str2 ≥ threshold then true
  else if charSimilarity str1 str2 ≥ threshold then true
  else if checkNameVariations str1 str2 then true
  else decide (wordSimilarity str1 str2 * (6/10) + charSimilarity str1 str2 * (4/10) ≥ threshold)

/-- `_fuzzy_match_address` (document_processor.py lines 886-909). -/
def fuzzyMatchAddress (str1 str2 : String) (threshold : ℚ) : Bool :=
  let str1Clean := cleanAddress str1
  let str2Clean := cleanAddress str2
  if str1Clean = str2Clean then true
  else if wordSimilarity str1Clean str2Clean ≥ threshold then true
  else if checkPartialAddressMatch str1Clean str2Clean then true
  else decide (wordSimilarity str1Clean str2Clean * (7/10) +
    charSimilarity str1Clean str2Clean * (3/10) ≥ threshold)

/-- `_fuzzy_match` (document_processor.py lines 816-849): empty inputs never
match; lower-cased whitespace-normalized equality and abbreviation-normalized
equality match immediately; otherwise dispatch on the match type. -/
def fuzzyMatch (str1 str2 : String) (threshold : ℚ) (matchType : String) : Bool :=
  if str1 = "" ∨ str2 = "" then false
  else
    let s1 := pyNormWs str1
    let s2 := pyNormWs str2
    if s1 = s2 then true
    else if normalizeString s1 = normalizeString s2 then true
    else if matchType = "name" then fuzzyMatchName s1 s2 threshold
    else if matchType = "address" then fuzzyMatchAddress s1 s2 threshold
    else fuzzyMatchGeneral s1 s2 threshold

/-- The character substitution of `_normalize_date`
(document_processor.py line 1289): characters other than word characters,
whitespace and hyphens become spaces. -/
def dateSubChar (c : Char) : Char :=
  if c.isAlphanum || c = '_' || c.isWhitespace || c = '-' then c else ' '

/-- The preprocessing of `_normalize_date`: apply the substitution and strip
leading and trailing whitespace. -/
def dateClean (s : String) : String :=
  pyTrim (String.mk (s.data.map dateSubChar))

/-- One token of a `strptime` format string as used by `_normalize_date`:
a four-digit year, a one-or-two-digit month or day, a literal separator, or a
whitespace run. -/
inductive DateTok where
  | year | month | day | lit (c : Char) | ws
deriving Repr, DecidableEq

/-- The ordered format list of `_normalize_date`
(document_processor.py lines 1292-1302). -/
def strptimeFormats : List (List DateTok) :=
  [[.year, .lit '-', .month, .lit '-', .day],
   [.day, .lit '/', .month, .lit '/', .year],
   [.month, .lit '/', .day, .lit '/', .year],
   [.day, .lit '-', .month, .lit '-', .year],
   [.month, .lit '-', .day, .lit '-', .year],
   [.day, .ws, .month, .ws, .year],
   [.month, .ws, .day, .ws, .year],
   [.year, .lit '/', .month, .lit '/', .day],
   [.year, .lit '/', .day, .lit '/', .month]]

/-- Digit-list to number. -/
def digitsToNat (ds : List Char) : ℕ :=
  ds.foldl (fun acc c => acc * 10 + (c.toNat - '0'.toNat)) 0

/-- `strptime`-style matching of a format against the characters of the
cleaned date string: `%Y` takes exactly four digits, `%m`/`%d` take one or two
digits greedily, a literal matches itself, whitespace matches a non-empty
whitespace run; the whole input must be consumed. -/
def matchDateToks : List DateTok → List Char → ℕ → ℕ → ℕ → Option (ℕ × ℕ × ℕ)
  | [], [], y, m, d => some (y, m, d)
  | [], _ :: _, _, _, _ => none
  | .year :: rest, c1 :: c2 :: c3 :: c4 :: cs, _, m, d =>
    if c1.isDigit ∧ c2.isDigit ∧ c3.isDigit ∧ c4.isDigit then
      matchDateToks rest cs (digitsToNat [c1, c2, c3, c4]) m d
    else none
  | .year :: _, _, _, _, _ => none
  | .month :: rest, cs, y, _, d =>
    let ds := (cs.takeWhile Char.isDigit).take 2
    if ds = [] then none else matchDateToks rest (cs.drop ds.length) y (digitsToNat ds) d
  | .day :: rest, cs, y, m, _ =>
    let ds := (cs.takeWhile Char.isDigit).take 2
    if ds = [] then none else matchDateToks rest (cs.drop ds.length) y m (digitsToNat ds)
  | .lit ch :: rest, c :: cs, y, m, d =>
    if c = ch then matchDateToks rest cs y m d else none
  | .lit _ :: _, [], _, _, _ => none
  | .ws :: rest, cs, y, m, d =>
    let run := cs.takeWhile Char.isWhitespace
    if run = [] then none else matchDateToks rest (cs.drop run.length) y m d

/-- Gregorian month lengths, as enforced by `datetime.strptime`. -/
def daysInMonth (y m : ℕ) : ℕ :=
  if m = 2 then (if (y % 4 = 0 ∧ y % 100 ≠ 0) ∨ y % 400 = 0 then 29 else 28)
  else if m = 4 ∨ m = 6 ∨ m = 9 ∨ m = 11 then 30
  else 31

/-- `datetime` range validation: a parse that produces an out-of-range date
raises `ValueError`, making `_normalize_date` try the next format. -/
def isValidDate (y m d : ℕ) : Bool :=
  1 ≤ y ∧ 1 ≤ m ∧ m ≤ 12 ∧ 1 ≤ d ∧ d ≤ daysInMonth y m

/-- Zero-pad to two digits, as `strftime('%m')`/`strftime('%d')` do. -/
def pad2 (n : ℕ) : String :=
  if n < 10 then "0" ++ toString n else toString n

/-- Try one `strptime` format: a regex-level match followed by date
validation. -/
def tryDateFormat (fmt : List DateTok) (s : String) : Option String :=
  match matchDateToks fmt s.data 0 0 0 with
  | some (y, m, d) =>
    if isValidDate y m d then some (toString y ++ "-" ++ pad2 m ++ "-" ++ pad2 d) else none
  | none => none

/-- `_normalize_date` (document_processor.py lines 1281-1315): clean the
string, try the formats in order, and return the first normalized
`YYYY-MM-DD`; if no format matches, return the cleaned string. -/
def normalizeDate (dateStr : String) : String :=
  let cleaned := dateClean dateStr
  match (strptimeFormats.filterMap (fun fmt => tryDateFormat fmt cleaned)).head? with
  | some res => res
  | none => cleaned

/-- One field-level mismatch, or — only in the error fallback of
`_validate_with_rules` — a bare diagnostic string appended to the
discrepancy list. -/
inductive DiscrepancyItem where
  | entry (field document_value user_value severity : String)
  | note (msg : String)
deriving Repr, DecidableEq

/-- The severity a discrepancy contributes to the penalty counts; the bare
diagnostic string has none. -/
def severityOf : DiscrepancyItem → String
  | .entry _ _ _ s => s
  | .note _ => ""

/-- The dictionary returned by the rule-based validators
(document_processor.py lines 620-626): match flag, confidence score,
discrepancies, warnings and a details map. -/
structure ValidationResult where
  overall_match : Bool
  confidence_score : ℤ
  discrepancies : List DiscrepancyItem
  warnings : List String
  validation_details : List (String × String)
deriving Repr, DecidableEq

/-- The fields of an extracted-document record consumed by enrichment and by
the rule-based validators; an absent field is the empty string, matching
Python's `dict.get(key, '')`. -/
structure ExtractedDoc where
  first_name : String := ""
  last_name : String := ""
  dob : String := ""
  nationality : String := ""
  full_address : String := ""
  account_holder_name : String := ""
  employer_name : String := ""
  employee_name : String := ""
  position : String := ""
  annual_salary : String := ""
deriving Repr, DecidableEq

/-- The customer-declared record fields consumed by enrichment, validation and
risk scoring; absent string fields are empty strings, the income is `none`
when absent, and `documents` holds the keys of the documents dictionary. -/
structure CustomerData where
  name : String := ""
  dob : String := ""
  nationality : String := ""
  address : String := ""
  employer : String := ""
  occupation : String := ""
  annual_income : Option ℚ := none
  business_name : String := ""
  position : String := ""
  pep_status : Bool := false
  documents : List String := []
deriving Repr, DecidableEq

/-- The computation of `user_first_name` in `_validate_id_proof`
(document_processor.py line 630): when the declared name is truthy, Python
indexes `name.split()[0]`, which raises `IndexError` for a whitespace-only
name; this is the one reachable exception of the rule-based validators. -/
def idUserFirstName (user : CustomerData) : Except String String :=
  if user.name ≠ "" then
    match pySplit user.name with
    | [] => .error "list index out of range"
    | w :: _ => .ok (pyLower w)
  else .ok ""

/-- The score-finalization block repeated verbatim in `_validate_id_proof`
and `_validate_address_proof` (document_processor.py lines 687-698 and
738-749): an empty discrepancy list keeps the initial full-match result;
otherwise the match flag drops and the confidence becomes
`max 0 (100 - (high*30 + medium*20 + total*10))`. -/
def finalizeValidation (discrepancies : List DiscrepancyItem) : ValidationResult :=
  if discrepancies = [] then
    { overall_match := true, confidence_score := 100, discrepancies := [],
      warnings := [], validation_details := [] }
  else
    let total := discrepancies.length
    let high := discrepancies.countP (fun d => severityOf d = "high")
    let medium := discrepancies.countP (fun d => severityOf d = "medium")
    let penalty : ℤ := (high : ℤ) * 30 + (medium : ℤ) * 20 + (total : ℤ) * 10
    { overall_match := false, confidence_score := max 0 (100 - penalty),
      discrepancies := discrepancies, warnings := [], validation_details := [] }

/-- The score-finalization block of `_validate_employment_proof`
(document_processor.py lines 801-813), whose penalty also counts low
severities separately and weights the total by 5. -/
def finalizeEmploymentValidation (discrepancies : List DiscrepancyItem) : ValidationResult :=
  if discrepancies = [] then
    { overall_match := true, confidence_score := 100, discrepancies := [],
      warnings := [], validation_details := [] }
  else
    let total := discrepancies.length
    let high := discrepancies.countP (fun d => severityOf d = "high")
    let medium := discrepancies.countP (fun d => severityOf d = "medium")
    let low := discrepancies.countP (fun d => severityOf d = "low")
    let penalty : ℤ := (high : ℤ) * 30 + (medium : ℤ) * 20 + (low : ℤ) * 10 + (total : ℤ) * 5
    { overall_match := false, confidence_score := max 0 (100 - penalty),
      discrepancies := discrepancies, warnings := [], validation_details := [] }

/-- `_validate_id_proof` (document_processor.py lines 618-699): compare first
name, last name, date of birth and nationality, then derive the confidence
score `max 0 (100 - (high*30 + medium*20 + total*10))`. -/
def validateIdProof (extracted : ExtractedDoc) (user : CustomerData) :
    Except String ValidationResult :=
  match idUserFirstName user with
  | .error e => .error e
  | .ok userFirstName =>
    let userLastName := if 1 < (pySplit user.name).length then
        pyLower (pyJoinSpace (pySplit user.name).tail) else ""
    let docFirstName := pyLower (pyTrim extracted.first_name)
    let docLastName := pyLower (pyTrim extracted.last_name)
    let d1 := if docFirstName ≠ "" ∧ userFirstName ≠ "" ∧
        fuzzyMatch docFirstName userFirstName (8/10) "name" = false then
        [DiscrepancyItem.entry "first_name" docFirstName userFirstName "medium"] else []
    let d2 := if docLastName ≠ "" ∧ userLastName ≠ "" ∧
        fuzzyMatch docLastName userLastName (8/10) "name" = false then
        [DiscrepancyItem.entry "last_name" docLastName userLastName "medium"] else []
    let d3 := if extracted.dob ≠ "" ∧ user.dob ≠ "" ∧
        normalizeDate extracted.dob ≠ normalizeDate user.dob then
        [DiscrepancyItem.entry "date_of_birth" extracted.dob user.dob "high"] else []
    let docNationality := pyLower (pyTrim extracted.nationality)
    let userNationality := pyLower (pyTrim user.nationality)
    let d4 := if docNationality ≠ "" ∧ userNationality ≠ "" ∧
        fuzzyMatch docNationality userNationality (8/10) "general" = false then
        [DiscrepancyItem.entry "nationality" docNationality userNationality "low"] else []
    .ok (finalizeValidation (d1 ++ d2 ++ d3 ++ d4))

/-- `_validate_address_proof` (document_processor.py lines 701-750): compare
the address and the account-holder name (both `high` severity), then derive
the confidence score `max 0 (100 - (high*30 + medium*20 + total*10))`. -/
def validateAddressProof (extracted : ExtractedDoc) (user : CustomerData) :
    ValidationResult :=
  let docAddress := pyLower (pyTrim extracted.full_address)
  let userAddress := pyLower (pyTrim user.address)
  let d1 := if docAddress ≠ "" ∧ userAddress ≠ "" ∧
      fuzzyMatch docAddress userAddress (8/10) "address" = false then
      [DiscrepancyItem.entry "address" docAddress userAddress "high"] else []
  let accountHolder := pyLower (pyTrim extracted.account_holder_name)
  let userName := pyLower (pyTrim user.name)
  let d2 := if accountHolder ≠ "" ∧ userName ≠ "" ∧
      fuzzyMatch accountHolder userName (8/10) "name" = false then
      [DiscrepancyItem.entry "account_holder_name" accountHolder userName "high"] else []
  finalizeValidation (d1 ++ d2)

/-- `_validate_employment_proof` (document_processor.py lines 752-814):
compare employer (medium, threshold 0.7), employee name (high, 0.8) and
position (low, 0.6), then derive the confidence score
`max 0 (100 - (high*30 + medium*20 + low*10 + total*5))`. -/
def validateEmploymentProof (extracted : ExtractedDoc) (user : CustomerData) :
    ValidationResult :=
  let docEmployer := pyLower (pyTrim extracted.employer_name)
  let userEmployer := pyLower (pyTrim user.employer)
  let d1 := if docEmployer ≠ "" ∧ userEmployer ≠ "" ∧
      fuzzyMatch docEmployer userEmployer (7/10) "general" = false then
      [DiscrepancyItem.entry "employer" docEmployer userEmployer "medium"] else []
  let docEmployee := pyLower (pyTrim extracted.employee_name)
  let userName := pyLower (pyTrim user.name)
  let d2 := if docEmployee ≠ "" ∧ userName ≠ "" ∧
      fuzzyMatch docEmployee userName (8/10) "name" = false then
      [DiscrepancyItem.entry "employee_name" docEmployee userName "high"] else []
  let docPosition := pyLower (pyTrim extracted.position)
  let userOccupation := pyLower (pyTrim user.occupation)
  let d3 := if docPosition ≠ "" ∧ userOccupation ≠ "" ∧
      fuzzyMatch docPosition userOccupation (6/10) "general" = false then
      [DiscrepancyItem.entry "position" docPosition userOccupation "low"] else []
  finalizeEmploymentValidation (d1 ++ d2 ++ d3)

/-- The dispatch inside the `try` of `_validate_with_rules`
(document_processor.py lines 589-606), before exception handling. -/
def validateWithRulesDispatch (extracted : ExtractedDoc) (user : CustomerData)
    (documentType : String) : Except String ValidationResult :=
  if documentType = "id_proof" then validateIdProof extracted user
  else if documentType = "address_proof" then .ok (validateAddressProof extracted user)
  else if documentType = "employment_proof" then .ok (validateEmploymentProof extracted user)
  else .ok { overall_match := true, confidence_score := 100, discrepancies := [],
             warnings := [], validation_details := [] }

/-- `_validate_with_rules` (document_processor.py lines 587-616): the
dispatch with its `except` branch, which converts an internal error into a
minimal zero-confidence result. -/
def validateWithRules (extracted : ExtractedDoc) (user : CustomerData)
    (documentType : String) : ValidationResult :=
  match validateWithRulesDispatch extracted user documentType with
  | .ok r => r
  | .error e =>
    { overall_match := false, confidence_score := 0,
      discrepancies := [DiscrepancyItem.note "Validation error occurred"],
      warnings := ["Validation failed: " ++ e], validation_details := [] }

/-- The decimal fragment of Python `float()`: optional sign, digits with an
optional fractional part, optional exponent; `inf`/`nan` and digit-group
underscores are outside the fragment this embedding covers. -/
def pyFloat (s : String) : Option ℚ :=
  let cs := (pyTrim s).data
  let signedTail := match cs with
    | '+' :: rest => ((1 : ℚ), rest)
    | '-' :: rest => ((-1 : ℚ), rest)
    | _ => ((1 : ℚ), cs)
  let sign := signedTail.1
  let cs0 := signedTail.2
  let intPart := cs0.takeWhile Char.isDigit
  let cs1 := cs0.drop intPart.length
  let fracTail := match cs1 with
    | '.' :: rest => (rest.takeWhile Char.isDigit, rest.drop (rest.takeWhile Char.isDigit).length)
    | _ => (([] : List Char), cs1)
  let fracPart := fracTail.1
  let cs2 := fracTail.2
  if intPart = [] ∧ fracPart = [] then none
  else
    let mantissa : ℚ :=
      (digitsToNat intPart : ℚ) + (digitsToNat fracPart : ℚ) / ((10 : ℚ) ^ fracPart.length)
    match cs2 with
    | [] => some (sign * mantissa)
    | 'e' :: rest =>
      let expTail := match rest with
        | '+' :: r => ((1 : ℤ), r)
        | '-' :: r => ((-1 : ℤ), r)
        | _ => ((1 : ℤ), rest)
      let eds := expTail.2.takeWhile Char.isDigit
      if eds = [] ∨ expTail.2.drop eds.length ≠ [] then none
      else some (sign * mantissa * (10 : ℚ) ^ (expTail.1 * (digitsToNat eds : ℤ)))
    | 'E' :: rest =>
      let expTail := match rest with
        | '+' :: r => ((1 : ℤ), r)
        | '-' :: r => ((-1 : ℤ), r)
        | _ => ((1 : ℤ), rest)
      let eds := expTail.2.takeWhile Char.isDigit
      if eds = [] ∨ expTail.2.drop eds.length ≠ [] then none
      else some (sign * mantissa * (10 : ℚ) ^ (expTail.1 * (digitsToNat eds : ℤ)))
    | _ => none

/-- `KYCProcessor.parse_salary` (main.py lines 744-754): strip currency
symbols and commas, parse as a float, and return `none` on failure or empty
input. -/
def parseSalary (salaryStr : String) : Option ℚ :=
  if salaryStr = "" then none
  else
    pyFloat (String.mk (salaryStr.data.filter
      (fun c => c ≠ '$' ∧ c ≠ ',' ∧ c ≠ '£' ∧ c ≠ '€')))

/-- The composite document name built by the id-proof branch of
`enhance_customer_data_with_documents` (main.py line 631):
`f"{first_name} {last_name}".strip()`. -/
def idProofName (extracted : ExtractedDoc) : String :=
  pyTrim (extracted.first_name ++ " " ++ extracted.last_name)

/-- The id-proof enrichment update (main.py lines 629-634): each field becomes
`extracted or declared`, so the extracted value wins whenever it is
non-empty. -/
def applyIdProof (extracted : ExtractedDoc) (c : CustomerData) : CustomerData :=
  { c with
    name := if idProofName extracted = "" then c.name else idProofName extracted,
    dob := if extracted.dob = "" then c.dob else extracted.dob,
    nationality := if extracted.nationality = "" then c.nationality else extracted.nationality }

/-- The address-proof enrichment update (main.py lines 636-639). -/
def applyAddressProof (extracted : ExtractedDoc) (c : CustomerData) : CustomerData :=
  { c with
    address := if extracted.full_address = "" then c.address else extracted.full_address }

/-- The employment-proof enrichment update (main.py lines 641-646); the income
update is `parse_salary(annual_salary) or declared`, so a failed parse and a
parsed `0.0` (both falsy) keep the declared income. -/
def applyEmploymentProof (extracted : ExtractedDoc) (c : CustomerData) : CustomerData :=
  { c with
    employer := if extracted.employer_name = "" then c.employer else extracted.employer_name,
    occupation := if extracted.position = "" then c.occupation else extracted.position,
    annual_income :=
      match parseSalary extracted.annual_salary with
      | some v => if v = 0 then c.annual_income else some v
      | none => c.annual_income }

/-- The outcome of `extract_info_from_document` for one attached document. -/
inductive ExtractResult where
  | success (extracted : ExtractedDoc)
  | failure (error : String)
deriving Repr, DecidableEq

/-- The per-document enrichment step of `enhance_customer_data_with_documents`
(main.py lines 608-658): on successful extraction, apply the update for the
document kind; on failure, only metadata is recorded and no field changes. -/
def enhanceWithDocument (docType : String) (res : ExtractResult)
    (c : CustomerData) : CustomerData :=
  match res with
  | .success extracted =>
    if docType = "id_proof" then applyIdProof extracted c
    else if docType = "address_proof" then applyAddressProof extracted c
    else if docType = "employment_proof" then applyEmploymentProof extracted c
    else c
  | .failure _ => c

/-- The additive risk score of `calculate_estimated_risk`
(main.py lines 683-710). -/
def riskScore (c : CustomerData) : ℤ :=
  (if c.pep_status then 50 else 0) +
  (match c.annual_income with
   | some income => if 500000 < income then 30 else if 200000 < income then 15 else 0
   | none => 0) +
  (if c.business_name ≠ "" then 20 else 0) +
  (if c.position ≠ "" ∧ strContainsSub (pyLower c.position) "government" then 25 else 0) +
  ((((["id_proof", "address_proof", "employment_proof"].filter
      (fun doc => ¬ c.documents.contains doc)).length : ℤ)) * 10)

/-- The thresholding of `calculate_estimated_risk` (main.py lines 712-718). -/
def riskBandOf (score : ℤ) : String :=
  if 50 ≤ score then "High" else if 25 ≤ score then "Medium" else "Low"

/-- `calculate_estimated_risk` (main.py lines 683-718). -/
def calculateEstimatedRisk (c : CustomerData) : String :=
  riskBandOf (riskScore c)

/-- The ordering Low < Medium < High used to state monotonicity. -/
def riskOrd (level : String) : ℕ :=
  if level = "High" then 2 else if level = "Medium" then 1 else 0

/-- The abbreviation-similarity rule as the specification words it
(spec.md section 4.2): score 0.9 exactly when the single token is a substring
of the FIRST word of the multi-token string, or equals the acronym of its
words; written only to compare the specification reading with the
implementation `abbreviationSimilarity`. -/
def abbreviationSimilaritySpec (str1 str2 : String) : ℚ :=
  let words1 := pySplit str1
  let words2 := pySplit str2
  if words1.length = 1 ∧ 1 < words2.length then
    if strContainsSub (words2.headD "") (words1.headD "") ∨
        (words1.headD "") = acronymOf str2 then 9/10 else 0
  else if words2.length = 1 ∧ 1 < words1.length then
    if strContainsSub (words1.headD "") (words2.headD "") ∨
        (words2.headD "") = acronymOf str1 then 9/10 else 0
  else 0

section Theorems

attribute [local semireducible] Rat.mul Rat.inv Rat.add Rat.sub

/-- Helper: the final-status decision table over arbitrary probe strings. -/
theorem finalStatus_cases (vs cs : String) :
    (finalStatus vs cs = "pending" ↔ (vs = "incomplete" ∨ cs = "warning")) ∧
    (finalStatus vs cs = "rejected" ↔
      (¬(vs = "incomplete" ∨ cs = "warning") ∧ (vs = "error" ∨ cs = "violation"))) ∧
    (finalStatus vs cs = "approved" ↔
      (¬(vs = "incomplete" ∨ cs = "warning") ∧ ¬(vs = "error" ∨ cs = "violation"))) := by
  unfold finalStatus
  by_cases h1 : vs = "incomplete" <;> by_cases h2 : cs = "warning" <;>
    by_cases h3 : vs = "error" <;> by_cases h4 : cs = "violation" <;>
    simp [h1, h2, h3, h4]

/-- C1: for every pair of stage responses, the final case status computed by
`process_customer_submission` from the extracted probe results is `pending`
when the validation probe signals incompleteness (`incomplete`) or the
compliance probe signals a warning (`warning`); otherwise `rejected` when the
validation probe signals an error (`error`) or the compliance probe signals a
violation (`violation`); otherwise `approved`. -/
theorem final_status_decision_table (rv rc : AgentResponse) :
    (finalStatus (extractStatusFromResponse rv "validation_status")
        (extractStatusFromResponse rc "compliance_status") = "pending" ↔
      (extractStatusFromResponse rv "validation_status" = "incomplete" ∨
       extractStatusFromResponse rc "compliance_status" = "warning")) ∧
    (finalStatus (extractStatusFromResponse rv "validation_status")
        (extractStatusFromResponse rc "compliance_status") = "rejected" ↔
      (¬(extractStatusFromResponse rv "validation_status" = "incomplete" ∨
         extractStatusFromResponse rc "compliance_status" = "warning") ∧
       (extractStatusFromResponse rv "validation_status" = "error" ∨
        extractStatusFromResponse rc "compliance_status" = "violation"))) ∧
    (finalStatus (extractStatusFromResponse rv "validation_status")
        (extractStatusFromResponse rc "compliance_status") = "approved" ↔
      (¬(extractStatusFromResponse rv "validation_status" = "incomplete" ∨
         extractStatusFromResponse rc "compliance_status" = "warning") ∧
       ¬(extractStatusFromResponse rv "validation_status" = "error" ∨
         extractStatusFromResponse rc "compliance_status" = "violation"))) :=
  finalStatus_cases _ _

/-- C2 counterexample: when every stage's external call raises, each stage
yields the caught error dictionary, both probes extract `unknown`, and the
persisted final status is `approved` — not `pending` and not `rejected` as the
claim states. -/
theorem pipeline_all_stages_raise_counterexample :
    pipelinePersistedStatus
        (invokeBedrockAgent (.error "Connection error") "VAL_AGENT" "t1")
        (invokeBedrockAgent (.error "Connection error") "COMP_AGENT" "t2") = "approved" ∧
    ("approved" : String) ≠ "pending" ∧ ("approved" : String) ≠ "rejected" := by
  refine ⟨rfl, by decide, by decide⟩

/-- C2 amended: a run in which every stage's external call raises still
completes — `invoke_bedrock_agent` catches the exception and returns the error
dictionary — and persists the terminal status `approved` (both probes extract
`unknown` from the error dictionaries), never leaving the case in progress. -/
theorem pipeline_all_stages_raise_terminal (e1 e2 a1 a2 t1 t2 : String) :
    pipelinePersistedStatus
        (invokeBedrockAgent (.error e1) a1 t1)
        (invokeBedrockAgent (.error e2) a2 t2) = "approved" := by
  simp [pipelinePersistedStatus, invokeBedrockAgent, invokeErrorResult,
    extractStatusFromResponse, List.lookup, finalStatus]

/-- C7: two non-empty inputs that are equal after lower-casing and whitespace
normalization always match immediately, for every threshold and match type. -/
theorem normalized_equality_immediate_match (s1 s2 : String) (t : ℚ) (mt : String)
    (h1 : s1 ≠ "") (h2 : s2 ≠ "") (h : pyNormWs s1 = pyNormWs s2) :
    fuzzyMatch s1 s2 t mt = true := by
  simp [fuzzyMatch, h1, h2, h]

/-- Witness for C7 at a concrete input. -/
theorem normalized_equality_immediate_match_witness :
    fuzzyMatch "William  Johnson" "william johnson" (8/10) "name" = true :=
  normalized_equality_immediate_match _ _ _ _ (by decide) (by decide) (by decide)

/-- C9: an empty compared value short-circuits `_fuzzy_match` to a non-match —
the embedding is a total function, so no exception is possible — including
when both values are empty and therefore equal. -/
theorem empty_input_never_matches (s1 s2 : String) (t : ℚ) (mt : String)
    (h : s1 = "" ∨ s2 = "") : fuzzyMatch s1 s2 t mt = false := by
  unfold fuzzyMatch
  exact if_pos h

/-- Witness for C9 with both values empty (and thus equal). -/
theorem empty_input_never_matches_witness :
    fuzzyMatch "" "" (8/10) "general" = false :=
  empty_input_never_matches "" "" (8/10) "general" (Or.inl rfl)

/-- C10: for every document type other than the three known ones, the
rule-based validator returns a full match with confidence 100 and empty
discrepancies and warnings, whatever the two records contain. -/
theorem unknown_document_type_vacuous_validation (e : ExtractedDoc)
    (u : CustomerData) (dt : String) (h1 : dt ≠ "id_proof")
    (h2 : dt ≠ "address_proof") (h3 : dt ≠ "employment_proof") :
    validateWithRules e u dt =
      { overall_match := true, confidence_score := 100, discrepancies := [],
        warnings := [], validation_details := [] } := by
  simp [validateWithRules, validateWithRulesDispatch, h1, h2, h3]

/-- Witness for C10 at a concrete unknown document type and maximally
differing records. -/
theorem unknown_document_type_vacuous_validation_witness :
    validateWithRules { first_name := "Bob", nationality := "Germany" }
        { name := "Alice Smith", nationality := "France" } "passport" =
      { overall_match := true, confidence_score := 100, discrepancies := [],
        warnings := [], validation_details := [] } :=
  unknown_document_type_vacuous_validation _ _ _
    (by decide) (by decide) (by decide)

/-- C3 counterexample: with a non-empty declared name and a non-empty
extracted name, enrichment replaces the declared value — `Alice Smith`
becomes `Bob Jones` — so declared data does not win over extracted data. -/
theorem enrichment_overwrites_declared_name :
    ({ name := "Alice Smith" } : CustomerData).name ≠ "" ∧
    idProofName { first_name := "Bob", last_name := "Jones" } ≠ "" ∧
    (enhanceWithDocument "id_proof"
      (.success { first_name := "Bob", last_name := "Jones" })
      { name := "Alice Smith" }).name = "Bob Jones" ∧
    ("Bob Jones" : String) ≠ "Alice Smith" := by
  decide

/-- C3 amended: for a document whose extraction succeeded, each enriched
field is `extracted or declared` — the extracted value wins whenever it is
non-empty (for income: whenever the parsed salary is truthy), and the
declared value survives only when the extracted value is empty or absent. -/
theorem enrichment_extracted_wins (ex : ExtractedDoc) (c : CustomerData) :
    (enhanceWithDocument "id_proof" (.success ex) c).name =
      (if idProofName ex = "" then c.name else idProofName ex) ∧
    (enhanceWithDocument "id_proof" (.success ex) c).dob =
      (if ex.dob = "" then c.dob else ex.dob) ∧
    (enhanceWithDocument "id_proof" (.success ex) c).nationality =
      (if ex.nationality = "" then c.nationality else ex.nationality) ∧
    (enhanceWithDocument "address_proof" (.success ex) c).address =
      (if ex.full_address = "" then c.address else ex.full_address) ∧
    (enhanceWithDocument "employment_proof" (.success ex) c).employer =
      (if ex.employer_name = "" then c.employer else ex.employer_name) ∧
    (enhanceWithDocument "employment_proof" (.success ex) c).occupation =
      (if ex.position = "" then c.occupation else ex.position) ∧
    (enhanceWithDocument "employment_proof" (.success ex) c).annual_income =
      (match parseSalary ex.annual_salary with
       | some v => if v = 0 then c.annual_income else some v
       | none => c.annual_income) := by
  refine ⟨?_, ?_, ?_, ?_, ?_, ?_, ?_⟩ <;>
    simp [enhanceWithDocument, applyIdProof, applyAddressProof, applyEmploymentProof]

/-- Helper: the risk-band ordinal never exceeds 2. -/
theorem riskOrd_le_two (lvl : String) : riskOrd lvl ≤ 2 := by
  unfold riskOrd
  split
  · omega
  · split <;> omega

/-- Helper: the band thresholds are monotone in the additive score. -/
theorem riskBandOf_mono {s t : ℤ} (h : s ≤ t) :
    riskOrd (riskBandOf s) ≤ riskOrd (riskBandOf t) := by
  unfold riskBandOf
  by_cases h50 : 50 ≤ t
  · rw [if_pos h50]
    exact riskOrd_le_two _
  · have h50s : ¬ 50 ≤ s := by omega
    rw [if_neg h50, if_neg h50s]
    by_cases h25 : 25 ≤ t
    · rw [if_pos h25]
      by_cases h25s : 25 ≤ s
      · rw [if_pos h25s]
      · rw [if_neg h25s]
        decide
    · have h25s : ¬ 25 ≤ s := by omega
      rw [if_neg h25, if_neg h25s]

/-- C6: the risk scorer is monotonic — flipping the PEP flag from false to
true, or adding any business name to a record without one, never decreases
the resulting band under Low < Medium < High. -/
theorem risk_scorer_monotonic (c : CustomerData) (bn : String) :
    riskOrd (calculateEstimatedRisk { c with pep_status := false }) ≤
      riskOrd (calculateEstimatedRisk { c with pep_status := true }) ∧
    riskOrd (calculateEstimatedRisk { c with business_name := "" }) ≤
      riskOrd (calculateEstimatedRisk { c with business_name := bn }) := by
  constructor
  · unfold calculateEstimatedRisk
    apply riskBandOf_mono
    simp only [riskScore]
    simp only [Bool.false_eq_true, if_false, if_true, ite_true, ite_false,
      reduceIte]
    linarith
  · unfold calculateEstimatedRisk
    apply riskBandOf_mono
    simp only [riskScore]
    have hb : (0:ℤ) ≤ (if bn ≠ "" then 20 else 0) := by split <;> norm_num
    simp only [ne_eq, not_true_eq_false, if_false, ite_false, reduceIte]
    linarith

/-- Helper: the shared finalization satisfies the ValidationResult
invariant. -/
theorem finalizeValidation_inv (ds : List DiscrepancyItem) :
    0 ≤ (finalizeValidation ds).confidence_score ∧
    (finalizeValidation ds).confidence_score ≤ 100 ∧
    ((finalizeValidation ds).overall_match = true ↔
      (finalizeValidation ds).discrepancies = []) := by
  unfold finalizeValidation
  split
  · simp
  · next h =>
    refine ⟨le_max_left 0 _, ?_, by simp [h]⟩
    apply max_le (by norm_num)
    omega

/-- Helper: the employment finalization satisfies the ValidationResult
invariant. -/
theorem finalizeEmploymentValidation_inv (ds : List DiscrepancyItem) :
    0 ≤ (finalizeEmploymentValidation ds).confidence_score ∧
    (finalizeEmploymentValidation ds).confidence_score ≤ 100 ∧
    ((finalizeEmploymentValidation ds).overall_match = true ↔
      (finalizeEmploymentValidation ds).discrepancies = []) := by
  unfold finalizeEmploymentValidation
  split
  · simp
  · next h =>
    refine ⟨le_max_left 0 _, ?_, by simp [h]⟩
    apply max_le (by norm_num)
    omega

/-- Helper: on a non-empty discrepancy list the shared finalization yields
exactly the `high*30 + medium*20 + total*10` penalty, and stores the list. -/
theorem finalizeValidation_score (ds : List DiscrepancyItem) (h : ds ≠ []) :
    (finalizeValidation ds).discrepancies = ds ∧
    (finalizeValidation ds).confidence_score =
      max 0 (100 - ((ds.countP (fun d => severityOf d = "high") : ℤ) * 30 +
        (ds.countP (fun d => severityOf d = "medium") : ℤ) * 20 +
        (ds.length : ℤ) * 10)) := by
  unfold finalizeValidation
  rw [if_neg h]
  exact ⟨rfl, rfl⟩

/-- Helper: on a non-empty discrepancy list the employment finalization
yields exactly the `high*30 + medium*20 + low*10 + total*5` penalty. -/
theorem finalizeEmploymentValidation_score (ds : List DiscrepancyItem) (h : ds ≠ []) :
    (finalizeEmploymentValidation ds).discrepancies = ds ∧
    (finalizeEmploymentValidation ds).confidence_score =
      max 0 (100 - ((ds.countP (fun d => severityOf d = "high") : ℤ) * 30 +
        (ds.countP (fun d => severityOf d = "medium") : ℤ) * 20 +
        (ds.countP (fun d => severityOf d = "low") : ℤ) * 10 +
        (ds.length : ℤ) * 5)) := by
  unfold finalizeEmploymentValidation
  rw [if_neg h]
  exact ⟨rfl, rfl⟩

/-- Helper: the address-proof validator satisfies the ValidationResult
invariant. -/
theorem validateAddressProof_inv (e : ExtractedDoc) (u : CustomerData) :
    0 ≤ (validateAddressProof e u).confidence_score ∧
    (validateAddressProof e u).confidence_score ≤ 100 ∧
    ((validateAddressProof e u).overall_match = true ↔
      (validateAddressProof e u).discrepancies = []) := by
  unfold validateAddressProof
  exact finalizeValidation_inv _

/-- Helper: the employment-proof validator satisfies the ValidationResult
invariant. -/
theorem validateEmploymentProof_inv (e : ExtractedDoc) (u : CustomerData) :
    0 ≤ (validateEmploymentProof e u).confidence_score ∧
    (validateEmploymentProof e u).confidence_score ≤ 100 ∧
    ((validateEmploymentProof e u).overall_match = true ↔
      (validateEmploymentProof e u).discrepancies = []) := by
  unfold validateEmploymentProof
  exact finalizeEmploymentValidation_inv _

/-- Helper: every successful id-proof validation is a shared finalization of
some discrepancy list. -/
theorem validateIdProof_ok_shape (e : ExtractedDoc) (u : CustomerData)
    (r : ValidationResult) (h : validateIdProof e u = .ok r) :
    ∃ ds, r = finalizeValidation ds := by
  unfold validateIdProof at h
  cases hu : idUserFirstName u with
  | error msg => rw [hu] at h; simp at h
  | ok ufn =>
    rw [hu] at h
    dsimp only at h
    injection h with h2
    exact ⟨_, h2.symm⟩

/-- Helper: every successful id-proof validation satisfies the
ValidationResult invariant. -/
theorem validateIdProof_ok_inv (e : ExtractedDoc) (u : CustomerData)
    (r : ValidationResult) (h : validateIdProof e u = .ok r) :
    0 ≤ r.confidence_score ∧ r.confidence_score ≤ 100 ∧
    (r.overall_match = true ↔ r.discrepancies = []) := by
  obtain ⟨ds, rfl⟩ := validateIdProof_ok_shape e u r h
  exact finalizeValidation_inv ds

/-- C5: for every pair of records and every document type, the rule-based
validator returns a confidence score in [0, 100], and its overall-match flag
is true exactly when the discrepancy list is empty. -/
theorem rule_based_validation_invariant (e : ExtractedDoc) (u : CustomerData)
    (dt : String) :
    0 ≤ (validateWithRules e u dt).confidence_score ∧
    (validateWithRules e u dt).confidence_score ≤ 100 ∧
    ((validateWithRules e u dt).overall_match = true ↔
      (validateWithRules e u dt).discrepancies = []) := by
  unfold validateWithRules validateWithRulesDispatch
  by_cases h1 : dt = "id_proof"
  · simp only [h1, if_true, reduceIte]
    cases hid : validateIdProof e u with
    | error msg => simp [hid]
    | ok r => simpa [hid] using validateIdProof_ok_inv e u r hid
  · by_cases h2 : dt = "address_proof"
    · simpa [h1, h2] using validateAddressProof_inv e u
    · by_cases h3 : dt = "employment_proof"
      · simpa [h1, h2, h3] using validateEmploymentProof_inv e u
      · simp [h1, h2, h3]

/-- Helper: the shared finalization's score, phrased over the result's own
stored discrepancy list. -/
theorem finalizeValidation_score_self (ds : List DiscrepancyItem)
    (h : (finalizeValidation ds).discrepancies ≠ []) :
    (finalizeValidation ds).confidence_score =
      max 0 (100 -
        (((finalizeValidation ds).discrepancies.countP (fun d => severityOf d = "high") : ℤ) * 30 +
         ((finalizeValidation ds).discrepancies.countP (fun d => severityOf d = "medium") : ℤ) * 20 +
         ((finalizeValidation ds).discrepancies.length : ℤ) * 10)) := by
  have hds : ds ≠ [] := by
    intro he
    apply h
    rw [he]
    rfl
  obtain ⟨hd, hs⟩ := finalizeValidation_score ds hds
  rw [hd, hs]

/-- Helper: the employment finalization's score, phrased over the result's
own stored discrepancy list. -/
theorem finalizeEmploymentValidation_score_self (ds : List DiscrepancyItem)
    (h : (finalizeEmploymentValidation ds).discrepancies ≠ []) :
    (finalizeEmploymentValidation ds).confidence_score =
      max 0 (100 -
        (((finalizeEmploymentValidation ds).discrepancies.countP (fun d => severityOf d = "high") : ℤ) * 30 +
         ((finalizeEmploymentValidation ds).discrepancies.countP (fun d => severityOf d = "medium") : ℤ) * 20 +
         ((finalizeEmploymentValidation ds).discrepancies.countP (fun d => severityOf d = "low") : ℤ) * 10 +
         ((finalizeEmploymentValidation ds).discrepancies.length : ℤ) * 5)) := by
  have hds : ds ≠ [] := by
    intro he
    apply h
    rw [he]
    rfl
  obtain ⟨hd, hs⟩ := finalizeEmploymentValidation_score ds hds
  rw [hd, hs]

/-- C4 counterexample: an id-proof validation with a single low-severity
discrepancy (nationality mismatch) scores `100 - (0*30 + 0*20 + 1*10) = 90`,
while the claimed formula `high*30 + medium*20 + low*10 + total*(5 or 10)`
would give 85 or 80 — the id-proof penalty has no separate low-severity
term. -/
theorem id_proof_low_severity_penalty_counterexample :
    (validateWithRules { nationality := "Germany" } { nationality := "France" }
        "id_proof").discrepancies.map severityOf = ["low"] ∧
    (validateWithRules { nationality := "Germany" } { nationality := "France" }
        "id_proof").confidence_score = 90 ∧
    (90 : ℤ) ≠ max 0 (100 - (0 * 30 + 0 * 20 + 1 * 10 + 1 * 10)) ∧
    (90 : ℤ) ≠ max 0 (100 - (0 * 30 + 0 * 20 + 1 * 10 + 1 * 5)) := by
  exact ⟨by decide, by decide, by decide, by decide⟩

/-- C4 amended: for id-proof (on every run that completes without an internal
error) and address-proof validations with at least one discrepancy, the
confidence score is `max 0 (100 - (high*30 + medium*20 + total*10))` — with
no separate low-severity term; for employment-proof validations it is
`max 0 (100 - (high*30 + medium*20 + low*10 + total*5))`. -/
theorem confidence_penalty_formulas (e : ExtractedDoc) (u : CustomerData)
    (r : ValidationResult) :
    (validateIdProof e u = .ok r → r.discrepancies ≠ [] →
      r.confidence_score =
        max 0 (100 -
          ((r.discrepancies.countP (fun d => severityOf d = "high") : ℤ) * 30 +
           (r.discrepancies.countP (fun d => severityOf d = "medium") : ℤ) * 20 +
           (r.discrepancies.length : ℤ) * 10))) ∧
    ((validateAddressProof e u).discrepancies ≠ [] →
      (validateAddressProof e u).confidence_score =
        max 0 (100 -
          (((validateAddressProof e u).discrepancies.countP (fun d => severityOf d = "high") : ℤ) * 30 +
           ((validateAddressProof e u).discrepancies.countP (fun d => severityOf d = "medium") : ℤ) * 20 +
           ((validateAddressProof e u).discrepancies.length : ℤ) * 10))) ∧
    ((validateEmploymentProof e u).discrepancies ≠ [] →
      (validateEmploymentProof e u).confidence_score =
        max 0 (100 -
          (((validateEmploymentProof e u).discrepancies.countP (fun d => severityOf d = "high") : ℤ) * 30 +
           ((validateEmploymentProof e u).discrepancies.countP (fun d => severityOf d = "medium") : ℤ) * 20 +
           ((validateEmploymentProof e u).discrepancies.countP (fun d => severityOf d = "low") : ℤ) * 10 +
           ((validateEmploymentProof e u).discrepancies.length : ℤ) * 5))) := by
  refine ⟨?_, ?_, ?_⟩
  · intro h hne
    obtain ⟨ds, rfl⟩ := validateIdProof_ok_shape e u r h
    exact finalizeValidation_score_self ds hne
  · intro hne
    unfold validateAddressProof at hne ⊢
    exact finalizeValidation_score_self _ hne
  · intro hne
    unfold validateEmploymentProof at hne ⊢
    exact finalizeEmploymentValidation_score_self _ hne

/-- Witness for C4 amended: a concrete address-proof mismatch instantiating
the `high*30 + medium*20 + total*10` formula. -/
theorem confidence_penalty_formulas_witness :
    (validateAddressProof { full_address := "zzz" } { address := "qqq" }).confidence_score =
      max 0 (100 -
        (((validateAddressProof { full_address := "zzz" } { address := "qqq" }).discrepancies.countP
            (fun d => severityOf d = "high") : ℤ) * 30 +
         ((validateAddressProof { full_address := "zzz" } { address := "qqq" }).discrepancies.countP
            (fun d => severityOf d = "medium") : ℤ) * 20 +
         ((validateAddressProof { full_address := "zzz" } { address := "qqq" }).discrepancies.length : ℤ) * 10)) :=
  (confidence_penalty_formulas { full_address := "zzz" } { address := "qqq" }
    { overall_match := true, confidence_score := 0, discrepancies := [],
      warnings := [], validation_details := [] }).2.1 (by decide)

/-- Helper: `_abbreviation_similarity` is symmetric in its two arguments. -/
theorem abbreviationSimilarity_comm (s1 s2 : String) :
    abbreviationSimilarity s1 s2 = abbreviationSimilarity s2 s1 := by
  unfold abbreviationSimilarity
  by_cases c1 : (pySplit s1).length = 1 ∧ 1 < (pySplit s2).length <;>
    by_cases c2 : (pySplit s2).length = 1 ∧ 1 < (pySplit s1).length
  · obtain ⟨a1, a2⟩ := c1
    obtain ⟨b1, b2⟩ := c2
    omega
  · simp [c1, c2]
  · simp [c1, c2]
  · simp [c1, c2]

/-- C8 counterexample: on `("corp", "big corporation")` the implementation
returns 0.9 because `corp` is a prefix of the second word `corporation`,
while the claimed rule (substring of the first word, or the acronym `bc`)
yields 0 — refuting the claimed exact characterization. -/
theorem abbreviation_similarity_spec_counterexample :
    abbreviationSimilarity "corp" "big corporation" = 9/10 ∧
    abbreviationSimilaritySpec "corp" "big corporation" = 0 := by
  exact ⟨by decide, by decide⟩

/-- C8 amended: when one input is a single token and the other has several
tokens, the similarity is symmetric, takes only the values 0.9 and 0, and is
0.9 exactly when the token has at least two characters and either equals the
acronym of the multi-token string or is a prefix of SOME of its words (not
necessarily a substring of the first). -/
theorem abbreviation_similarity_characterization (s1 s2 tok : String)
    (h1 : pySplit s1 = [tok]) (h2 : 1 < (pySplit s2).length) :
    abbreviationSimilarity s1 s2 = abbreviationSimilarity s2 s1 ∧
    (abbreviationSimilarity s1 s2 = 9/10 ↔
      2 ≤ tok.length ∧
        (pyLower tok = acronymOf s2 ∨
         (pySplit s2).any (fun w => pyStartsWith (pyLower w) (pyLower tok)) = true)) ∧
    (abbreviationSimilarity s1 s2 = 9/10 ∨ abbreviationSimilarity s1 s2 = 0) := by
  have hval : abbreviationSimilarity s1 s2 =
      if isAbbreviation tok s2 then 9/10 else 0 := by
    unfold abbreviationSimilarity
    rw [h1]
    simp [h2]
  have hlen2 : ¬((pySplit s2).length = 1) := by omega
  have hiff : isAbbreviation tok s2 = true ↔
      (2 ≤ tok.length ∧
        (pyLower tok = acronymOf s2 ∨
         (pySplit s2).any (fun w => pyStartsWith (pyLower w) (pyLower tok)) = true)) := by
    unfold isAbbreviation
    by_cases ht : tok.length < 2
    · rw [if_pos ht]
      simp only [Bool.false_eq_true, false_iff, not_and]
      intro hge
      omega
    · rw [if_neg ht]
      have h2le : 2 ≤ tok.length := by omega
      by_cases hacr : pyLower tok = acronymOf s2
      · simp [hlen2, hacr, h2le]
      · simp [hlen2, hacr, h2le]
  refine ⟨abbreviationSimilarity_comm s1 s2, ?_, ?_⟩
  · rw [hval]
    by_cases hab : isAbbreviation tok s2 = true
    · rw [if_pos hab]
      simp only [true_iff]
      exact hiff.mp hab
    · rw [if_neg hab]
      constructor
      · intro h0
        exact absurd h0 (by norm_num)
      · intro hr
        exact absurd (hiff.mpr hr) hab
  · rw [hval]
    split
    · exact Or.inl rfl
    · exact Or.inr rfl

/-- Witness for C8 amended at `("corp", "big corporation")`. -/
theorem abbreviation_similarity_characterization_witness :
    abbreviationSimilarity "corp" "big corporation" =
      abbreviationSimilarity "big corporation" "corp" :=
  (abbreviation_similarity_characterization "corp" "big corporation" "corp"
    (by decide) (by decide)).1

end Theorems

end KYC
